import Mathlib

/-!
Verification of `scripts/medical_license_calculation.py`.

The script is embedded shallowly over exact rationals (`ℚ`): Python floats
become rationals, and `scipy.stats.norm.cdf` becomes a function parameter
`cdf : ℚ → ℚ`.  Facts about the standard normal CDF that a theorem needs
(monotonicity, the exact value `1/2` at `0`, numeric bounds at the points the
embedded dataset evaluates it) are taken as explicit hypotheses; they are all
true of the standard normal distribution.

Python raises `ZeroDivisionError` when `1 / true_pass_rate` divides by the
float `0.0` (script line 176); a computation that raises is modelled as
`Option.none`.  The `print` calls and the CSV export are output-only side
effects and are not modelled; the exported table's row order is the sorted
`DataFrame` row order, which is modelled.

`pandas.DataFrame.sort_values(ascending=False)` computes an ascending
`numpy.argsort` of the key column and reverses the resulting indexer
(`pandas.core.sorting.nargsort`); for a column of fewer than 17 rows numpy's
default sort runs plain insertion sort, which is stable.  The sort of the
script is therefore modelled as the reverse of a stable ascending insertion
sort.

The script's dict keys and variable names are Japanese; they are rendered
here with the English names the specification uses, and each definition's doc
comment records the exact source key.
-/

namespace MedicalLicense

/-- Embedding of `hensachi_to_percentile` (script line 16):
`(1 - norm.cdf((hensachi - 50) / 10)) * 100`. -/
def hensachi_to_percentile (cdf : ℚ → ℚ) (hensachi : ℚ) : ℚ :=
  (1 - cdf ((hensachi - 50) / 10)) * 100

/-- Embedding of `percentile_to_probability` (script line 27): `percentile / 100`. -/
def percentile_to_probability (percentile : ℚ) : ℚ :=
  percentile / 100

/-- One value of the `medical_licenses_data` dict (script line 34).  A key
absent from a record is `none`.  Source keys: `examPassRate` = 国家試験合格率,
`newGradPassRate` = 新卒合格率, `retakerPassRate` = 既卒合格率 (never read),
`hensachiLow` = 入学偏差値_最低, `hensachiAvg` = 入学偏差値_平均,
`hensachiHigh` = 入学偏差値_上位, `straightGradRate` = ストレート卒業率,
`prerequisiteLicense` = 前提資格, `hensachiExtra` = 入学偏差値_追加 (never
read), `trainingYears` / `trainingYearsVocational` / `trainingYearsUniversity`
= 養成期間 / 養成期間_専門 / 養成期間_大学 (never read), `sixYearProbability`
= 6年間で医師になる確率 and 6年間でストレート薬剤師になる確率 (never read). -/
structure ProfessionData where
  examPassRate : Option ℚ := none
  newGradPassRate : Option ℚ := none
  retakerPassRate : Option ℚ := none
  hensachiLow : Option ℚ := none
  hensachiAvg : Option ℚ := none
  hensachiHigh : Option ℚ := none
  straightGradRate : Option ℚ := none
  prerequisiteLicense : Option String := none
  hensachiExtra : Option ℚ := none
  trainingYears : Option ℚ := none
  trainingYearsVocational : Option ℚ := none
  trainingYearsUniversity : Option ℚ := none
  sixYearProbability : Option ℚ := none
deriving DecidableEq

/-- The dict returned by `calculate_true_pass_rate` (script lines 179-189).
Source keys: `licenseName` = 資格名, `hensachiUsed` = 使用偏差値,
`topPercentile` = 人口上位%, `admissionProbability` = 入学確率,
`straightGradRate` = ストレート卒業率, `newGradExamPassRate` = 新卒国試合格率,
`truePassRate` = 本当の合格率, `truePassRatePercent` = 本当の合格率%,
`oneInN` = 難易度(何人に1人). -/
structure ComputationResult where
  licenseName : String
  hensachiUsed : ℚ
  topPercentile : ℚ
  admissionProbability : ℚ
  straightGradRate : ℚ
  newGradExamPassRate : ℚ
  truePassRate : ℚ
  truePassRatePercent : ℚ
  oneInN : ℚ
deriving DecidableEq

/-- The score-tier selection of `calculate_true_pass_rate` (script lines
135-142): pick the dict key for the requested tier — any tier other than
`"最低"` and `"上位"` selects 入学偏差値_平均 — then `data.get(key, 50)`. -/
def selected_hensachi (data : ProfessionData) (use_hensachi : String) : ℚ :=
  if use_hensachi = "最低" then (data.hensachiLow).getD 50
  else if use_hensachi = "上位" then (data.hensachiHigh).getD 50
  else (data.hensachiAvg).getD 50

/-- Script line 152: `data.get("ストレート卒業率", 0.85)`. -/
def straight_graduation_rate (data : ProfessionData) : ℚ :=
  (data.straightGradRate).getD 0.85

/-- Script line 158: `data.get("国家試験合格率", 0.90)`. -/
def national_exam_pass_rate (data : ProfessionData) : ℚ :=
  (data.examPassRate).getD 0.9

/-- Script line 159: `data.get("新卒合格率", national_exam_pass_rate)`. -/
def new_grad_pass_rate (data : ProfessionData) : ℚ :=
  (data.newGradPassRate).getD (national_exam_pass_rate data)

/-- The local `true_pass_rate` of script line 167:
`selection_probability * straight_graduation_rate * new_grad_pass_rate`. -/
def true_pass_rate_of (cdf : ℚ → ℚ) (data : ProfessionData) (use_hensachi : String) : ℚ :=
  percentile_to_probability (hensachi_to_percentile cdf (selected_hensachi data use_hensachi)) *
    straight_graduation_rate data * new_grad_pass_rate data

/-- Embedding of `calculate_true_pass_rate` (script line 126).  When the
composed rate is `0`, script line 176 evaluates `1 / true_pass_rate` on the
float `0.0` and Python raises `ZeroDivisionError` before any dict is built;
that aborted computation is `none`.  Otherwise the dict of lines 179-189 is
returned. -/
def calculate_true_pass_rate (cdf : ℚ → ℚ) (license_name : String) (data : ProfessionData)
    (use_hensachi : String) : Option ComputationResult :=
  if true_pass_rate_of cdf data use_hensachi = 0 then none
  else some {
    licenseName := license_name
    hensachiUsed := selected_hensachi data use_hensachi
    topPercentile := hensachi_to_percentile cdf (selected_hensachi data use_hensachi)
    admissionProbability := percentile_to_probability (hensachi_to_percentile cdf (selected_hensachi data use_hensachi))
    straightGradRate := straight_graduation_rate data
    newGradExamPassRate := new_grad_pass_rate data
    truePassRate := true_pass_rate_of cdf data use_hensachi
    truePassRatePercent := true_pass_rate_of cdf data use_hensachi * 100
    oneInN := 1 / true_pass_rate_of cdf data use_hensachi }

/-- The `"医師"` (physician) record of `medical_licenses_data` (lines 35-45). -/
def dataPhysician : ProfessionData :=
  { examPassRate := some 0.924, newGradPassRate := some 0.95, retakerPassRate := some 0.60,
    hensachiLow := some 67, hensachiAvg := some 70, hensachiHigh := some 77,
    straightGradRate := some 0.849, sixYearProbability := some 0.813, trainingYears := some 6 }

/-- The `"歯科医師"` (dentist) record (lines 46-53). -/
def dataDentist : ProfessionData :=
  { examPassRate := some 0.703, hensachiLow := some 50, hensachiAvg := some 55,
    hensachiHigh := some 65, straightGradRate := some 0.75, trainingYears := some 6 }

/-- The `"薬剤師"` (pharmacist) record (lines 54-64). -/
def dataPharmacist : ProfessionData :=
  { examPassRate := some 0.6885, newGradPassRate := some 0.8496, retakerPassRate := some 0.4394,
    hensachiLow := some 44, hensachiAvg := some 57, hensachiHigh := some 65,
    straightGradRate := some 0.673, sixYearProbability := some 0.571, trainingYears := some 6 }

/-- The `"看護師"` (nurse) record (lines 65-75). -/
def dataNurse : ProfessionData :=
  { examPassRate := some 0.901, newGradPassRate := some 0.959, retakerPassRate := some 0.449,
    hensachiLow := some 40, hensachiAvg := some 48, hensachiHigh := some 60,
    straightGradRate := some 0.85, trainingYearsVocational := some 3,
    trainingYearsUniversity := some 4 }

/-- The `"保健師"` (public health nurse) record (lines 76-80); carries 前提資格. -/
def dataPublicHealthNurse : ProfessionData :=
  { examPassRate := some 0.957, prerequisiteLicense := some "看護師", hensachiExtra := some 5 }

/-- The `"助産師"` (midwife) record (lines 81-85); carries 前提資格. -/
def dataMidwife : ProfessionData :=
  { examPassRate := some 0.988, prerequisiteLicense := some "看護師", hensachiExtra := some 5 }

/-- The `"理学療法士"` (physical therapist) record (lines 86-95). -/
def dataPhysicalTherapist : ProfessionData :=
  { examPassRate := some 0.896, newGradPassRate := some 0.925, hensachiLow := some 35,
    hensachiAvg := some 48, hensachiHigh := some 65, straightGradRate := some 0.88,
    trainingYearsVocational := some 3, trainingYearsUniversity := some 4 }

/-- The `"作業療法士"` (occupational therapist) record (lines 96-104). -/
def dataOccupationalTherapist : ProfessionData :=
  { examPassRate := some 0.858, hensachiLow := some 35, hensachiAvg := some 47,
    hensachiHigh := some 65, straightGradRate := some 0.86,
    trainingYearsVocational := some 3, trainingYearsUniversity := some 4 }

/-- The `"診療放射線技師"` (radiologic technologist) record (lines 105-113). -/
def dataRadiologicTechnologist : ProfessionData :=
  { examPassRate := some 0.847, hensachiLow := some 38, hensachiAvg := some 50,
    hensachiHigh := some 60, straightGradRate := some 0.85,
    trainingYearsVocational := some 3, trainingYearsUniversity := some 4 }

/-- The `"臨床検査技師"` (clinical laboratory technologist) record (lines 114-123). -/
def dataClinicalLabTechnologist : ProfessionData :=
  { examPassRate := some 0.846, newGradPassRate := some 0.940, hensachiLow := some 38,
    hensachiAvg := some 50, hensachiHigh := some 60, straightGradRate := some 0.85,
    trainingYearsVocational := some 3, trainingYearsUniversity := some 4 }

/-- `medical_licenses_data` (script line 34) in dict insertion order. -/
def medical_licenses_data : List (String × ProfessionData) :=
  [("医師", dataPhysician), ("歯科医師", dataDentist), ("薬剤師", dataPharmacist),
   ("看護師", dataNurse), ("保健師", dataPublicHealthNurse), ("助産師", dataMidwife),
   ("理学療法士", dataPhysicalTherapist), ("作業療法士", dataOccupationalTherapist),
   ("診療放射線技師", dataRadiologicTechnologist), ("臨床検査技師", dataClinicalLabTechnologist)]

/-- The driver loop of script lines 192-202: walk the dataset in declaration
order, skip records that carry 前提資格, compute each remaining record with
tier `"平均"` and append the result.  An uncaught exception inside
`calculate_true_pass_rate` aborts the run (`none`). -/
def collect_results (cdf : ℚ → ℚ) : List (String × ProfessionData) → Option (List ComputationResult)
  | [] => some []
  | (license_name, data) :: rest =>
    if (data.prerequisiteLicense).isSome then collect_results cdf rest
    else
      match calculate_true_pass_rate cdf license_name data "平均" with
      | none => none
      | some r => Option.map (fun rs => r :: rs) (collect_results cdf rest)

/-- The `results` list of the script after the loop of lines 192-202. -/
def run_results (cdf : ℚ → ℚ) : Option (List ComputationResult) :=
  collect_results cdf medical_licenses_data

/-- `df.sort_values("本当の合格率%", ascending=False)` (script line 206):
reverse of a stable ascending insertion sort on the key column, which is what
`pandas.core.sorting.nargsort` does for this frame (see the header comment). -/
def pandas_sort_desc (xs : List ComputationResult) : List ComputationResult :=
  (List.insertionSort
    (fun a b => a.truePassRatePercent ≤ b.truePassRatePercent) xs).reverse

/-- The row order of the `DataFrame` after script lines 205-206, which is the
row order printed at line 212 and exported at line 216. -/
def df_sorted (cdf : ℚ → ℚ) : Option (List ComputationResult) :=
  Option.map pandas_sort_desc (run_results cdf)

/-- The dict built at lines 179-189 for a record whose composed rate is
nonzero, as a standalone value. -/
def result_of (cdf : ℚ → ℚ) (license_name : String) (data : ProfessionData)
    (use_hensachi : String) : ComputationResult :=
  { licenseName := license_name
    hensachiUsed := selected_hensachi data use_hensachi
    topPercentile := hensachi_to_percentile cdf (selected_hensachi data use_hensachi)
    admissionProbability := percentile_to_probability (hensachi_to_percentile cdf (selected_hensachi data use_hensachi))
    straightGradRate := straight_graduation_rate data
    newGradExamPassRate := new_grad_pass_rate data
    truePassRate := true_pass_rate_of cdf data use_hensachi
    truePassRatePercent := true_pass_rate_of cdf data use_hensachi * 100
    oneInN := 1 / true_pass_rate_of cdf data use_hensachi }

/-- A record with every optional dict key absent. -/
def blank_data : ProfessionData := {}

/-- A record carrying only 国家試験合格率. -/
def exam_only_data : ProfessionData := { examPassRate := some 0.7 }

/-- The eight results the driver collects, in dataset-declaration order, as
an abbreviation for statements about the run. -/
def driver_results (cdf : ℚ → ℚ) : List ComputationResult := [
      result_of cdf "医師" dataPhysician "平均",
      result_of cdf "歯科医師" dataDentist "平均",
      result_of cdf "薬剤師" dataPharmacist "平均",
      result_of cdf "看護師" dataNurse "平均",
      result_of cdf "理学療法士" dataPhysicalTherapist "平均",
      result_of cdf "作業療法士" dataOccupationalTherapist "平均",
      result_of cdf "診療放射線技師" dataRadiologicTechnologist "平均",
      result_of cdf "臨床検査技師" dataClinicalLabTechnologist "平均"]

/-- A concrete rational stand-in for the standard normal CDF, agreeing with it
to the stated interval bounds at every point the embedded dataset evaluates
it; used to instantiate hypotheses in witnesses. -/
def refCdf : ℚ → ℚ := fun z =>
  if z < -(1/4) then 0.385
  else if z < 0 then 0.425
  else if z < 1/4 then 1/2
  else if z < 3/5 then 0.695
  else if z < 1 then 0.755
  else 0.9775

/-- A constant stand-in CDF, used where only `cdf 0 = 1/2` or monotonicity is
needed. -/
def half_cdf : ℚ → ℚ := fun _ => 1/2

/-- A constant CDF value of `1` drives the composed rate to `0`; scipy's
`norm.cdf` really returns the float `1.0` for large arguments. -/
def one_cdf : ℚ → ℚ := fun _ => 1

lemma refCdf_lt_one : ∀ z : ℚ, refCdf z < 1 := by
  intro z
  unfold refCdf
  split_ifs <;> norm_num

lemma calculate_eq_some (cdf : ℚ → ℚ) (license_name : String) (data : ProfessionData)
    (use_hensachi : String) (hne : true_pass_rate_of cdf data use_hensachi ≠ 0) :
    calculate_true_pass_rate cdf license_name data use_hensachi =
      some (result_of cdf license_name data use_hensachi) := by
  unfold calculate_true_pass_rate result_of
  rw [if_neg hne]

lemma tpr_one_blank_eq_zero : true_pass_rate_of one_cdf blank_data "平均" = 0 := by
  norm_num [true_pass_rate_of, percentile_to_probability, hensachi_to_percentile,
    selected_hensachi, straight_graduation_rate, new_grad_pass_rate,
    national_exam_pass_rate, one_cdf, blank_data]

lemma tpr_half_blank_ne_zero : true_pass_rate_of half_cdf blank_data "平均" ≠ 0 := by
  norm_num [true_pass_rate_of, percentile_to_probability, hensachi_to_percentile,
    selected_hensachi, straight_graduation_rate, new_grad_pass_rate,
    national_exam_pass_rate, half_cdf, blank_data]

lemma tpr_half_exam_only_ne_zero : true_pass_rate_of half_cdf exam_only_data "平均" ≠ 0 := by
  norm_num [true_pass_rate_of, percentile_to_probability, hensachi_to_percentile,
    selected_hensachi, straight_graduation_rate, new_grad_pass_rate,
    national_exam_pass_rate, half_cdf, exam_only_data]

/-- Claim C1, counterexample.  With a CDF value of `1` (really produced by
scipy for large arguments) and a record using the defaults, the composed
true-pass-probability is exactly `0`, and `calculate_true_pass_rate` does not
return a result: the run aborts (Python raises `ZeroDivisionError` at
`1 / true_pass_rate`, script line 176), contradicting the claim that a result
with a sentinel "1 in N" field is returned. -/
theorem zero_composed_rate_counterexample :
    true_pass_rate_of one_cdf blank_data "平均" = 0 ∧
    calculate_true_pass_rate one_cdf "X" blank_data "平均" = none := by
  refine ⟨tpr_one_blank_eq_zero, ?_⟩
  unfold calculate_true_pass_rate
  rw [if_pos tpr_one_blank_eq_zero]

/-- Claim C1, amended: if the composed true-pass-probability is exactly zero,
`calculate_true_pass_rate` does not return a result with a sentinel — the
reciprocal `1 / true_pass_rate` raises `ZeroDivisionError` (modelled as
`none`) and the run aborts. -/
theorem zero_composed_rate_aborts (cdf : ℚ → ℚ) (license_name : String)
    (data : ProfessionData) (use_hensachi : String)
    (h : true_pass_rate_of cdf data use_hensachi = 0) :
    calculate_true_pass_rate cdf license_name data use_hensachi = none := by
  unfold calculate_true_pass_rate
  rw [if_pos h]

/-- Witness for the amended claim C1 at a concrete input. -/
theorem zero_composed_rate_aborts_witness :
    calculate_true_pass_rate one_cdf "Y" blank_data "平均" = none :=
  zero_composed_rate_aborts one_cdf "Y" blank_data "平均" tpr_one_blank_eq_zero

/-- Claim C3: for every profession record and every score tier, the composed
true-pass-probability in the returned result equals the product of its three
constituent probabilities — admission probability, graduation rate and the
exam pass rate used — exactly (the floating-point tolerance of the claim is
an exact identity over ℚ). -/
theorem true_rate_eq_product_of_three (cdf : ℚ → ℚ) (license_name : String)
    (data : ProfessionData) (use_hensachi : String) (r : ComputationResult)
    (h : calculate_true_pass_rate cdf license_name data use_hensachi = some r) :
    r.truePassRate = r.admissionProbability * r.straightGradRate * r.newGradExamPassRate := by
  unfold calculate_true_pass_rate at h
  split at h
  · exact absurd h (by simp)
  · rw [Option.some.injEq] at h
    subst h
    rfl

/-- Witness for claim C3 at a concrete input. -/
theorem true_rate_eq_product_of_three_witness :
    (result_of half_cdf "X" blank_data "平均").truePassRate =
      (result_of half_cdf "X" blank_data "平均").admissionProbability *
        (result_of half_cdf "X" blank_data "平均").straightGradRate *
        (result_of half_cdf "X" blank_data "平均").newGradExamPassRate :=
  true_rate_eq_product_of_three half_cdf "X" blank_data "平均" _
    (calculate_eq_some half_cdf "X" blank_data "平均" tpr_half_blank_ne_zero)

/-- Claim C5: missing optional dataset fields are resolved by the documented
defaults and never cause an error — an absent 新卒合格率 makes the result use
国家試験合格率 as the exam pass rate, an absent ストレート卒業率 defaults to
`0.85`, an absent requested score tier defaults to a score of `50`; and with
the resolved values positive and the CDF below `1`, the computation always
returns a result (missing fields alone never abort it). -/
theorem missing_fields_resolved_by_defaults (cdf : ℚ → ℚ) (license_name : String)
    (data : ProfessionData) (use_hensachi : String) :
    (∀ r, calculate_true_pass_rate cdf license_name data use_hensachi = some r →
      (data.newGradPassRate = none → ∀ e, data.examPassRate = some e →
        r.newGradExamPassRate = e) ∧
      (data.straightGradRate = none → r.straightGradRate = 0.85) ∧
      (use_hensachi = "最低" → data.hensachiLow = none → r.hensachiUsed = 50) ∧
      (use_hensachi = "上位" → data.hensachiHigh = none → r.hensachiUsed = 50) ∧
      (use_hensachi ≠ "最低" → use_hensachi ≠ "上位" → data.hensachiAvg = none →
        r.hensachiUsed = 50)) ∧
    (cdf ((selected_hensachi data use_hensachi - 50) / 10) < 1 →
      0 < straight_graduation_rate data → 0 < new_grad_pass_rate data →
      ∃ r, calculate_true_pass_rate cdf license_name data use_hensachi = some r) := by
  constructor
  · intro r hr
    unfold calculate_true_pass_rate at hr
    split at hr
    · exact absurd hr (by simp)
    · rw [Option.some.injEq] at hr
      subst hr
      refine ⟨?_, ?_, ?_, ?_, ?_⟩
      · intro hn e hee
        simp [new_grad_pass_rate, national_exam_pass_rate, hn, hee]
      · intro hs
        simp [straight_graduation_rate, hs]
      · intro ht hnone
        simp [selected_hensachi, ht, hnone]
      · intro ht hnone
        simp [selected_hensachi, ht, hnone]
      · intro ht1 ht2 hnone
        simp [selected_hensachi, ht1, ht2, hnone]
  · intro hc hg hn
    have hpos : 0 < true_pass_rate_of cdf data use_hensachi := by
      unfold true_pass_rate_of percentile_to_probability hensachi_to_percentile
      have h1 : (0:ℚ) < 1 - cdf ((selected_hensachi data use_hensachi - 50) / 10) := by
        linarith
      exact mul_pos (mul_pos (div_pos (mul_pos h1 (by norm_num)) (by norm_num)) hg) hn
    exact ⟨_, calculate_eq_some _ _ _ _ hpos.ne'⟩

/-- Witness for claim C5 at a concrete input: a record carrying only
国家試験合格率 gets the default graduation rate `0.85`, the default score
`50`, the exam rate as new-graduate rate, and still yields a result. -/
theorem missing_fields_resolved_by_defaults_witness :
    calculate_true_pass_rate half_cdf "X" exam_only_data "平均" =
      some (result_of half_cdf "X" exam_only_data "平均") ∧
    (result_of half_cdf "X" exam_only_data "平均").newGradExamPassRate = 0.7 ∧
    (result_of half_cdf "X" exam_only_data "平均").straightGradRate = 0.85 ∧
    (result_of half_cdf "X" exam_only_data "平均").hensachiUsed = 50 := by
  have hsome : calculate_true_pass_rate half_cdf "X" exam_only_data "平均" =
      some (result_of half_cdf "X" exam_only_data "平均") :=
    calculate_eq_some half_cdf "X" exam_only_data "平均" tpr_half_exam_only_ne_zero
  obtain ⟨hdef, -⟩ := missing_fields_resolved_by_defaults half_cdf "X" exam_only_data "平均"
  obtain ⟨ha, hb, -, -, hc2⟩ := hdef _ hsome
  exact ⟨hsome, ha rfl 0.7 rfl, hb rfl, hc2 (by decide) (by decide) rfl⟩

/-- Claim C6: `hensachi_to_percentile` computes `(1 - CDF((score - 50) / 10)) * 100`,
and at the mean score `50` it is exactly `50`, given the standard normal fact
`CDF(0) = 1/2`. -/
theorem score_to_top_percentile_formula (cdf : ℚ → ℚ) (h : cdf 0 = 1/2) :
    (∀ s : ℚ, hensachi_to_percentile cdf s = (1 - cdf ((s - 50) / 10)) * 100) ∧
    hensachi_to_percentile cdf 50 = 50 := by
  refine ⟨fun s => rfl, ?_⟩
  unfold hensachi_to_percentile
  norm_num [h]

/-- Witness for claim C6 at a concrete input. -/
theorem score_to_top_percentile_formula_witness :
    hensachi_to_percentile half_cdf 50 = 50 ∧
    hensachi_to_percentile half_cdf 70 = (1 - half_cdf ((70 - 50) / 10)) * 100 :=
  ⟨(score_to_top_percentile_formula half_cdf rfl).2,
   (score_to_top_percentile_formula half_cdf rfl).1 70⟩

/-- Claim C7: `hensachi_to_percentile` is monotonically non-increasing in the
score, given that the CDF is monotone (true of the standard normal CDF). -/
theorem score_to_top_percentile_antitone (cdf : ℚ → ℚ) (hm : Monotone cdf)
    (s1 s2 : ℚ) (h : s1 ≤ s2) :
    hensachi_to_percentile cdf s2 ≤ hensachi_to_percentile cdf s1 := by
  have hz : cdf ((s1 - 50) / 10) ≤ cdf ((s2 - 50) / 10) := hm (by linarith)
  unfold hensachi_to_percentile
  linarith

/-- Witness for claim C7 at a concrete input. -/
theorem score_to_top_percentile_antitone_witness :
    hensachi_to_percentile half_cdf 60 ≤ hensachi_to_percentile half_cdf 40 :=
  score_to_top_percentile_antitone half_cdf monotone_const 40 60 (by norm_num)

/-- Claim C8: every score-tier argument other than `"最低"` and `"上位"` —
including arbitrary unrecognized strings — selects the 入学偏差値_平均 key,
and the whole computation behaves exactly as with tier `"平均"`; no invalid
tier value is rejected. -/
theorem unknown_tier_selects_average (cdf : ℚ → ℚ) (license_name : String)
    (data : ProfessionData) (use_hensachi : String)
    (h1 : use_hensachi ≠ "最低") (h2 : use_hensachi ≠ "上位") :
    selected_hensachi data use_hensachi = (data.hensachiAvg).getD 50 ∧
    calculate_true_pass_rate cdf license_name data use_hensachi =
      calculate_true_pass_rate cdf license_name data "平均" := by
  have hsel : selected_hensachi data use_hensachi = selected_hensachi data "平均" := by
    simp [selected_hensachi, h1, h2]
  constructor
  · rw [hsel]
    simp [selected_hensachi]
  · simp only [calculate_true_pass_rate, true_pass_rate_of, hsel]

/-- Witness for claim C8 at a concrete unrecognized tier string. -/
theorem unknown_tier_selects_average_witness :
    selected_hensachi blank_data "未知の文字列" = (blank_data.hensachiAvg).getD 50 ∧
    calculate_true_pass_rate half_cdf "X" blank_data "未知の文字列" =
      calculate_true_pass_rate half_cdf "X" blank_data "平均" :=
  unknown_tier_selects_average half_cdf "X" blank_data "未知の文字列"
    (by decide) (by decide)

/-- Claim C9: a record lacking 国家試験合格率 does not make
`calculate_true_pass_rate` fail — the default exam pass rate `0.90` is used
silently, and when 新卒合格率 is also absent it becomes the new-graduate rate
as well, and a result is still returned. -/
theorem missing_exam_rate_defaults_to_090 (cdf : ℚ → ℚ) (license_name : String)
    (data : ProfessionData) (use_hensachi : String) (he : data.examPassRate = none) :
    national_exam_pass_rate data = 0.9 ∧
    (data.newGradPassRate = none →
      new_grad_pass_rate data = 0.9 ∧
      (∀ r, calculate_true_pass_rate cdf license_name data use_hensachi = some r →
        r.newGradExamPassRate = 0.9) ∧
      (cdf ((selected_hensachi data use_hensachi - 50) / 10) < 1 →
        0 < straight_graduation_rate data →
        ∃ r, calculate_true_pass_rate cdf license_name data use_hensachi = some r)) := by
  have hnat : national_exam_pass_rate data = 0.9 := by
    simp [national_exam_pass_rate, he]
  refine ⟨hnat, fun hn => ⟨?_, ?_, ?_⟩⟩
  · simp [new_grad_pass_rate, hn, hnat]
  · intro r hr
    unfold calculate_true_pass_rate at hr
    split at hr
    · exact absurd hr (by simp)
    · rw [Option.some.injEq] at hr
      subst hr
      simp [new_grad_pass_rate, hn, hnat]
  · intro hc hg
    have hngr : new_grad_pass_rate data = 0.9 := by
      simp [new_grad_pass_rate, hn, hnat]
    have hpos : 0 < true_pass_rate_of cdf data use_hensachi := by
      unfold true_pass_rate_of percentile_to_probability hensachi_to_percentile
      have h1 : (0:ℚ) < 1 - cdf ((selected_hensachi data use_hensachi - 50) / 10) := by
        linarith
      have hn9 : (0:ℚ) < new_grad_pass_rate data := by
        rw [hngr]
        norm_num
      exact mul_pos (mul_pos (div_pos (mul_pos h1 (by norm_num)) (by norm_num)) hg) hn9
    exact ⟨_, calculate_eq_some _ _ _ _ hpos.ne'⟩

/-- Witness for claim C9 at a concrete input: the all-defaults record. -/
theorem missing_exam_rate_defaults_to_090_witness :
    national_exam_pass_rate blank_data = 0.9 ∧ new_grad_pass_rate blank_data = 0.9 ∧
    ∃ r, calculate_true_pass_rate half_cdf "X" blank_data "平均" = some r :=
  ⟨(missing_exam_rate_defaults_to_090 half_cdf "X" blank_data "平均" rfl).1,
   ((missing_exam_rate_defaults_to_090 half_cdf "X" blank_data "平均" rfl).2 rfl).1,
   ((missing_exam_rate_defaults_to_090 half_cdf "X" blank_data "平均" rfl).2 rfl).2.2
     (by norm_num [half_cdf]) (by norm_num [straight_graduation_rate, blank_data])⟩

lemma selected_avg (data : ProfessionData) :
    selected_hensachi data "平均" = (data.hensachiAvg).getD 50 := by
  simp [selected_hensachi]

lemma tpr_physician (cdf : ℚ → ℚ) :
    true_pass_rate_of cdf dataPhysician "平均" = (1 - cdf 2) * 0.80655 := by
  simp only [true_pass_rate_of, percentile_to_probability, hensachi_to_percentile,
    selected_avg, straight_graduation_rate, new_grad_pass_rate,
    national_exam_pass_rate, dataPhysician, Option.getD_some]
  norm_num
  ring

lemma tpr_dentist (cdf : ℚ → ℚ) :
    true_pass_rate_of cdf dataDentist "平均" = (1 - cdf (1/2)) * 0.52725 := by
  simp only [true_pass_rate_of, percentile_to_probability, hensachi_to_percentile,
    selected_avg, straight_graduation_rate, new_grad_pass_rate,
    national_exam_pass_rate, dataDentist, Option.getD_some, Option.getD_none]
  norm_num
  ring

lemma tpr_pharmacist (cdf : ℚ → ℚ) :
    true_pass_rate_of cdf dataPharmacist "平均" = (1 - cdf (7/10)) * 0.5717808 := by
  simp only [true_pass_rate_of, percentile_to_probability, hensachi_to_percentile,
    selected_avg, straight_graduation_rate, new_grad_pass_rate,
    national_exam_pass_rate, dataPharmacist, Option.getD_some]
  norm_num
  ring

lemma tpr_nurse (cdf : ℚ → ℚ) :
    true_pass_rate_of cdf dataNurse "平均" = (1 - cdf (-(1/5))) * 0.81515 := by
  simp only [true_pass_rate_of, percentile_to_probability, hensachi_to_percentile,
    selected_avg, straight_graduation_rate, new_grad_pass_rate,
    national_exam_pass_rate, dataNurse, Option.getD_some]
  norm_num
  ring

lemma tpr_physical_therapist (cdf : ℚ → ℚ) :
    true_pass_rate_of cdf dataPhysicalTherapist "平均" = (1 - cdf (-(1/5))) * 0.814 := by
  simp only [true_pass_rate_of, percentile_to_probability, hensachi_to_percentile,
    selected_avg, straight_graduation_rate, new_grad_pass_rate,
    national_exam_pass_rate, dataPhysicalTherapist, Option.getD_some]
  norm_num
  ring

lemma tpr_occupational_therapist (cdf : ℚ → ℚ) :
    true_pass_rate_of cdf dataOccupationalTherapist "平均" = (1 - cdf (-(3/10))) * 0.73788 := by
  simp only [true_pass_rate_of, percentile_to_probability, hensachi_to_percentile,
    selected_avg, straight_graduation_rate, new_grad_pass_rate,
    national_exam_pass_rate, dataOccupationalTherapist, Option.getD_some, Option.getD_none]
  norm_num
  ring

lemma tpr_radiologic_technologist (cdf : ℚ → ℚ) :
    true_pass_rate_of cdf dataRadiologicTechnologist "平均" = (1 - cdf 0) * 0.71995 := by
  simp only [true_pass_rate_of, percentile_to_probability, hensachi_to_percentile,
    selected_avg, straight_graduation_rate, new_grad_pass_rate,
    national_exam_pass_rate, dataRadiologicTechnologist, Option.getD_some, Option.getD_none]
  norm_num
  ring

lemma tpr_clinical_lab_technologist (cdf : ℚ → ℚ) :
    true_pass_rate_of cdf dataClinicalLabTechnologist "平均" = (1 - cdf 0) * 0.799 := by
  simp only [true_pass_rate_of, percentile_to_probability, hensachi_to_percentile,
    selected_avg, straight_graduation_rate, new_grad_pass_rate,
    national_exam_pass_rate, dataClinicalLabTechnologist, Option.getD_some]
  norm_num
  ring

/-- Evaluation of the driver loop: with the CDF below `1` at the six points
the dataset evaluates it, every non-prerequisite record yields its result and
the `results` list is exactly the eight results in dataset-declaration
order. -/
lemma run_results_eq (cdf : ℚ → ℚ)
    (h1 : cdf 2 < 1) (h2 : cdf (1/2) < 1) (h3 : cdf (7/10) < 1)
    (h4 : cdf (-(1/5)) < 1) (h5 : cdf (-(3/10)) < 1) (h6 : cdf 0 < 1) :
    run_results cdf = some (driver_results cdf) := by
  have e1 : calculate_true_pass_rate cdf "医師" dataPhysician "平均" =
      some (result_of cdf "医師" dataPhysician "平均") :=
    calculate_eq_some _ _ _ _
      (by rw [tpr_physician]; exact (mul_pos (by linarith) (by norm_num)).ne')
  have e2 : calculate_true_pass_rate cdf "歯科医師" dataDentist "平均" =
      some (result_of cdf "歯科医師" dataDentist "平均") :=
    calculate_eq_some _ _ _ _
      (by rw [tpr_dentist]; exact (mul_pos (by linarith) (by norm_num)).ne')
  have e3 : calculate_true_pass_rate cdf "薬剤師" dataPharmacist "平均" =
      some (result_of cdf "薬剤師" dataPharmacist "平均") :=
    calculate_eq_some _ _ _ _
      (by rw [tpr_pharmacist]; exact (mul_pos (by linarith) (by norm_num)).ne')
  have e4 : calculate_true_pass_rate cdf "看護師" dataNurse "平均" =
      some (result_of cdf "看護師" dataNurse "平均") :=
    calculate_eq_some _ _ _ _
      (by rw [tpr_nurse]; exact (mul_pos (by linarith) (by norm_num)).ne')
  have e5 : calculate_true_pass_rate cdf "理学療法士" dataPhysicalTherapist "平均" =
      some (result_of cdf "理学療法士" dataPhysicalTherapist "平均") :=
    calculate_eq_some _ _ _ _
      (by rw [tpr_physical_therapist]; exact (mul_pos (by linarith) (by norm_num)).ne')
  have e6 : calculate_true_pass_rate cdf "作業療法士" dataOccupationalTherapist "平均" =
      some (result_of cdf "作業療法士" dataOccupationalTherapist "平均") :=
    calculate_eq_some _ _ _ _
      (by rw [tpr_occupational_therapist]; exact (mul_pos (by linarith) (by norm_num)).ne')
  have e7 : calculate_true_pass_rate cdf "診療放射線技師" dataRadiologicTechnologist "平均" =
      some (result_of cdf "診療放射線技師" dataRadiologicTechnologist "平均") :=
    calculate_eq_some _ _ _ _
      (by rw [tpr_radiologic_technologist]; exact (mul_pos (by linarith) (by norm_num)).ne')
  have e8 : calculate_true_pass_rate cdf "臨床検査技師" dataClinicalLabTechnologist "平均" =
      some (result_of cdf "臨床検査技師" dataClinicalLabTechnologist "平均") :=
    calculate_eq_some _ _ _ _
      (by rw [tpr_clinical_lab_technologist]; exact (mul_pos (by linarith) (by norm_num)).ne')
  have q1 : (dataPhysician.prerequisiteLicense).isSome = false := rfl
  have q2 : (dataDentist.prerequisiteLicense).isSome = false := rfl
  have q3 : (dataPharmacist.prerequisiteLicense).isSome = false := rfl
  have q4 : (dataNurse.prerequisiteLicense).isSome = false := rfl
  have q5 : (dataPublicHealthNurse.prerequisiteLicense).isSome = true := rfl
  have q6 : (dataMidwife.prerequisiteLicense).isSome = true := rfl
  have q7 : (dataPhysicalTherapist.prerequisiteLicense).isSome = false := rfl
  have q8 : (dataOccupationalTherapist.prerequisiteLicense).isSome = false := rfl
  have q9 : (dataRadiologicTechnologist.prerequisiteLicense).isSome = false := rfl
  have q10 : (dataClinicalLabTechnologist.prerequisiteLicense).isSome = false := rfl
  unfold run_results medical_licenses_data
  simp [collect_results, driver_results, e1, e2, e3, e4, e5, e6, e7, e8,
    q1, q2, q3, q4, q5, q6, q7, q8, q9, q10]

lemma pandas_sort_desc_perm (xs : List ComputationResult) :
    List.Perm (pandas_sort_desc xs) xs :=
  (List.reverse_perm _).trans (List.perm_insertionSort _ _)

instance : IsTotal ComputationResult
    (fun a b => a.truePassRatePercent ≤ b.truePassRatePercent) :=
  ⟨fun x y => le_total x.truePassRatePercent y.truePassRatePercent⟩

instance : IsTrans ComputationResult
    (fun a b => a.truePassRatePercent ≤ b.truePassRatePercent) :=
  ⟨fun _ _ _ hab hbc => le_trans hab hbc⟩

lemma pandas_sort_desc_sorted (xs : List ComputationResult) :
    (pandas_sort_desc xs).Pairwise
      (fun a b => b.truePassRatePercent ≤ a.truePassRatePercent) := by
  unfold pandas_sort_desc
  rw [List.pairwise_reverse]
  exact List.sorted_insertionSort _ xs

lemma eq_of_mem_of_pairwise_key_ne {l : List ComputationResult}
    (hl : l.Pairwise (fun a b => a.truePassRatePercent ≠ b.truePassRatePercent)) :
    ∀ a ∈ l, ∀ b ∈ l, a.truePassRatePercent = b.truePassRatePercent → a = b := by
  induction hl with
  | nil =>
    intro a ha
    exact absurd ha (List.not_mem_nil a)
  | @cons x lt hx hp ih =>
    intro a ha b hb hk
    rcases List.mem_cons.mp ha with rfl | ha2
    · rcases List.mem_cons.mp hb with rfl | hb2
      · rfl
      · exact absurd hk (hx b hb2)
    · rcases List.mem_cons.mp hb with rfl | hb2
      · exact absurd hk.symm (hx a ha2)
      · exact ih a ha2 b hb2 hk

/-- Claim C2: the final table holds exactly the collected results, sorted in
descending order of composed true-pass-probability; any two tied results in
the table are the same result (on the embedded dataset no two composed
probabilities coincide, so the tie-breaking clause holds vacuously and the
results appear in the only order a stable descending sort could give); and
three results with composed percentages 1.8, 5.0 and 0.9 are listed as
5.0, 1.8, 0.9.  The CDF hypotheses are numeric facts of the standard normal
CDF at the six points the dataset evaluates it. -/
theorem final_table_sorted_descending (cdf : ℚ → ℚ)
    (hb1 : 977/1000 ≤ cdf 2) (hb2 : cdf 2 ≤ 978/1000)
    (hb3 : 69/100 ≤ cdf (1/2)) (hb4 : cdf (1/2) ≤ 7/10)
    (hb5 : 3/4 ≤ cdf (7/10)) (hb6 : cdf (7/10) ≤ 19/25)
    (hb7 : 21/50 ≤ cdf (-(1/5))) (hb8 : cdf (-(1/5)) ≤ 43/100)
    (hb9 : 19/50 ≤ cdf (-(3/10))) (hb10 : cdf (-(3/10)) ≤ 39/100)
    (hb0 : cdf 0 = 1/2) :
    ∃ rs t, run_results cdf = some rs ∧ df_sorted cdf = some t ∧
      t.Perm rs ∧
      t.Pairwise (fun a b => b.truePassRatePercent ≤ a.truePassRatePercent) ∧
      (∀ a ∈ t, ∀ b ∈ t, a.truePassRatePercent = b.truePassRatePercent → a = b) ∧
      (∀ r1 r2 r3 : ComputationResult,
        r1.truePassRatePercent = 1.8 → r2.truePassRatePercent = 5 →
        r3.truePassRatePercent = 0.9 →
        pandas_sort_desc [r1, r2, r3] = [r2, r1, r3]) := by
  have k1 : (result_of cdf "医師" dataPhysician "平均").truePassRatePercent =
      (1 - cdf 2) * 0.80655 * 100 := by
    simp only [result_of]
    rw [tpr_physician]
  have k2 : (result_of cdf "歯科医師" dataDentist "平均").truePassRatePercent =
      (1 - cdf (1/2)) * 0.52725 * 100 := by
    simp only [result_of]
    rw [tpr_dentist]
  have k3 : (result_of cdf "薬剤師" dataPharmacist "平均").truePassRatePercent =
      (1 - cdf (7/10)) * 0.5717808 * 100 := by
    simp only [result_of]
    rw [tpr_pharmacist]
  have k4 : (result_of cdf "看護師" dataNurse "平均").truePassRatePercent =
      (1 - cdf (-(1/5))) * 0.81515 * 100 := by
    simp only [result_of]
    rw [tpr_nurse]
  have k5 : (result_of cdf "理学療法士" dataPhysicalTherapist "平均").truePassRatePercent =
      (1 - cdf (-(1/5))) * 0.814 * 100 := by
    simp only [result_of]
    rw [tpr_physical_therapist]
  have k6 : (result_of cdf "作業療法士" dataOccupationalTherapist "平均").truePassRatePercent =
      (1 - cdf (-(3/10))) * 0.73788 * 100 := by
    simp only [result_of]
    rw [tpr_occupational_therapist]
  have k7 : (result_of cdf "診療放射線技師" dataRadiologicTechnologist "平均").truePassRatePercent =
      (1 - cdf 0) * 0.71995 * 100 := by
    simp only [result_of]
    rw [tpr_radiologic_technologist]
  have k8 : (result_of cdf "臨床検査技師" dataClinicalLabTechnologist "平均").truePassRatePercent =
      (1 - cdf 0) * 0.799 * 100 := by
    simp only [result_of]
    rw [tpr_clinical_lab_technologist]
  have hpw : (driver_results cdf).Pairwise
      (fun a b => a.truePassRatePercent ≠ b.truePassRatePercent) := by
    simp only [driver_results, List.pairwise_cons, List.mem_cons, List.mem_singleton,
      List.not_mem_nil, or_false, forall_eq_or_imp, forall_eq, ne_eq,
      k1, k2, k3, k4, k5, k6, k7, k8]
    repeat' apply And.intro
    all_goals first
      | exact List.Pairwise.nil
      | exact fun _ h => h.elim
      | (intro hq; linarith)
  have heq := run_results_eq cdf (lt_of_le_of_lt hb2 (by norm_num))
    (lt_of_le_of_lt hb4 (by norm_num)) (lt_of_le_of_lt hb6 (by norm_num))
    (lt_of_le_of_lt hb8 (by norm_num)) (lt_of_le_of_lt hb10 (by norm_num))
    (by rw [hb0]; norm_num)
  refine ⟨driver_results cdf, pandas_sort_desc (driver_results cdf), heq, ?_,
    pandas_sort_desc_perm _, pandas_sort_desc_sorted _, ?_, ?_⟩
  · unfold df_sorted
    rw [heq]
    rfl
  · intro a ha b hb hk
    exact eq_of_mem_of_pairwise_key_ne hpw a ((pandas_sort_desc_perm _).mem_iff.mp ha)
      b ((pandas_sort_desc_perm _).mem_iff.mp hb) hk
  · intro r1 r2 r3 hr1 hr2 hr3
    unfold pandas_sort_desc
    norm_num [List.insertionSort, List.orderedInsert, hr1, hr2, hr3]

/-- Witness for claim C2: the CDF hypotheses are satisfied by the concrete
rational reference CDF. -/
theorem final_table_sorted_descending_witness :
    ∃ rs t, run_results refCdf = some rs ∧ df_sorted refCdf = some t ∧
      t.Perm rs ∧
      t.Pairwise (fun a b => b.truePassRatePercent ≤ a.truePassRatePercent) ∧
      (∀ a ∈ t, ∀ b ∈ t, a.truePassRatePercent = b.truePassRatePercent → a = b) ∧
      (∀ r1 r2 r3 : ComputationResult,
        r1.truePassRatePercent = 1.8 → r2.truePassRatePercent = 5 →
        r3.truePassRatePercent = 0.9 →
        pandas_sort_desc [r1, r2, r3] = [r2, r1, r3]) :=
  final_table_sorted_descending refCdf
    (by norm_num [refCdf]) (by norm_num [refCdf]) (by norm_num [refCdf])
    (by norm_num [refCdf]) (by norm_num [refCdf]) (by norm_num [refCdf])
    (by norm_num [refCdf]) (by norm_num [refCdf]) (by norm_num [refCdf])
    (by norm_num [refCdf]) (by norm_num [refCdf])

/-- Claim C4: every dataset record carrying 前提資格 is skipped by the driver
— its name appears neither in the collected results nor in the sorted table —
and every record without it contributes exactly one result, in
dataset-declaration order. -/
theorem prerequisite_records_excluded (cdf : ℚ → ℚ) (hc : ∀ z, cdf z < 1) :
    ∃ rs t, run_results cdf = some rs ∧ df_sorted cdf = some t ∧
      rs.map ComputationResult.licenseName =
        ["医師", "歯科医師", "薬剤師", "看護師", "理学療法士", "作業療法士",
         "診療放射線技師", "臨床検査技師"] ∧
      ∀ license_name data, (license_name, data) ∈ medical_licenses_data →
        (data.prerequisiteLicense).isSome →
        (∀ r ∈ rs, r.licenseName ≠ license_name) ∧
        (∀ r ∈ t, r.licenseName ≠ license_name) := by
  have heq := run_results_eq cdf (hc 2) (hc (1/2)) (hc (7/10)) (hc (-(1/5)))
    (hc (-(3/10))) (hc 0)
  refine ⟨driver_results cdf, pandas_sort_desc (driver_results cdf), heq, ?_, ?_, ?_⟩
  · unfold df_sorted
    rw [heq]
    rfl
  · simp [driver_results, result_of]
  · have key : ∀ r ∈ driver_results cdf,
        r.licenseName ≠ "保健師" ∧ r.licenseName ≠ "助産師" := by
      intro r hr
      simp only [driver_results] at hr
      fin_cases hr <;> simp [result_of]
    intro license_name data hmem hpre
    simp only [medical_licenses_data, List.mem_cons, List.not_mem_nil, or_false,
      Prod.mk.injEq] at hmem
    rcases hmem with h | h | h | h | h | h | h | h | h | h <;>
      obtain ⟨rfl, rfl⟩ := h
    · exact absurd hpre (by simp [dataPhysician])
    · exact absurd hpre (by simp [dataDentist])
    · exact absurd hpre (by simp [dataPharmacist])
    · exact absurd hpre (by simp [dataNurse])
    · exact ⟨fun r hr => (key r hr).1,
        fun r hr => (key r ((pandas_sort_desc_perm _).mem_iff.mp hr)).1⟩
    · exact ⟨fun r hr => (key r hr).2,
        fun r hr => (key r ((pandas_sort_desc_perm _).mem_iff.mp hr)).2⟩
    · exact absurd hpre (by simp [dataPhysicalTherapist])
    · exact absurd hpre (by simp [dataOccupationalTherapist])
    · exact absurd hpre (by simp [dataRadiologicTechnologist])
    · exact absurd hpre (by simp [dataClinicalLabTechnologist])

/-- Witness for claim C4 at the concrete reference CDF. -/
theorem prerequisite_records_excluded_witness :
    ∃ rs t, run_results refCdf = some rs ∧ df_sorted refCdf = some t ∧
      rs.map ComputationResult.licenseName =
        ["医師", "歯科医師", "薬剤師", "看護師", "理学療法士", "作業療法士",
         "診療放射線技師", "臨床検査技師"] ∧
      ∀ license_name data, (license_name, data) ∈ medical_licenses_data →
        (data.prerequisiteLicense).isSome →
        (∀ r ∈ rs, r.licenseName ≠ license_name) ∧
        (∀ r ∈ t, r.licenseName ≠ license_name) :=
  prerequisite_records_excluded refCdf refCdf_lt_one

/-- Claim C10: for every non-prerequisite record of the embedded dataset, at
the average tier, the composed true-pass-probability is strictly positive and
the "1 in N" reciprocal is a genuine reciprocal — no division by zero occurs
on the actual run.  The hypothesis `cdf z < 1` holds for the standard normal
CDF at every point. -/
theorem embedded_dataset_rates_positive (cdf : ℚ → ℚ) (hc : ∀ z, cdf z < 1) :
    ∀ license_name data, (license_name, data) ∈ medical_licenses_data →
      data.prerequisiteLicense = none →
      ∃ r, calculate_true_pass_rate cdf license_name data "平均" = some r ∧
        0 < r.truePassRate ∧ r.oneInN * r.truePassRate = 1 := by
  intro license_name data hmem hpre
  simp only [medical_licenses_data, List.mem_cons, List.not_mem_nil, or_false,
    Prod.mk.injEq] at hmem
  rcases hmem with h | h | h | h | h | h | h | h | h | h <;>
    obtain ⟨rfl, rfl⟩ := h
  · have hpos : 0 < true_pass_rate_of cdf dataPhysician "平均" := by
      rw [tpr_physician]
      exact mul_pos (by linarith [hc 2]) (by norm_num)
    exact ⟨_, calculate_eq_some _ _ _ _ hpos.ne', hpos, one_div_mul_cancel hpos.ne'⟩
  · have hpos : 0 < true_pass_rate_of cdf dataDentist "平均" := by
      rw [tpr_dentist]
      exact mul_pos (by linarith [hc (1/2)]) (by norm_num)
    exact ⟨_, calculate_eq_some _ _ _ _ hpos.ne', hpos, one_div_mul_cancel hpos.ne'⟩
  · have hpos : 0 < true_pass_rate_of cdf dataPharmacist "平均" := by
      rw [tpr_pharmacist]
      exact mul_pos (by linarith [hc (7/10)]) (by norm_num)
    exact ⟨_, calculate_eq_some _ _ _ _ hpos.ne', hpos, one_div_mul_cancel hpos.ne'⟩
  · have hpos : 0 < true_pass_rate_of cdf dataNurse "平均" := by
      rw [tpr_nurse]
      exact mul_pos (by linarith [hc (-(1/5))]) (by norm_num)
    exact ⟨_, calculate_eq_some _ _ _ _ hpos.ne', hpos, one_div_mul_cancel hpos.ne'⟩
  · exact absurd hpre (by simp [dataPublicHealthNurse])
  · exact absurd hpre (by simp [dataMidwife])
  · have hpos : 0 < true_pass_rate_of cdf dataPhysicalTherapist "平均" := by
      rw [tpr_physical_therapist]
      exact mul_pos (by linarith [hc (-(1/5))]) (by norm_num)
    exact ⟨_, calculate_eq_some _ _ _ _ hpos.ne', hpos, one_div_mul_cancel hpos.ne'⟩
  · have hpos : 0 < true_pass_rate_of cdf dataOccupationalTherapist "平均" := by
      rw [tpr_occupational_therapist]
      exact mul_pos (by linarith [hc (-(3/10))]) (by norm_num)
    exact ⟨_, calculate_eq_some _ _ _ _ hpos.ne', hpos, one_div_mul_cancel hpos.ne'⟩
  · have hpos : 0 < true_pass_rate_of cdf dataRadiologicTechnologist "平均" := by
      rw [tpr_radiologic_technologist]
      exact mul_pos (by linarith [hc 0]) (by norm_num)
    exact ⟨_, calculate_eq_some _ _ _ _ hpos.ne', hpos, one_div_mul_cancel hpos.ne'⟩
  · have hpos : 0 < true_pass_rate_of cdf dataClinicalLabTechnologist "平均" := by
      rw [tpr_clinical_lab_technologist]
      exact mul_pos (by linarith [hc 0]) (by norm_num)
    exact ⟨_, calculate_eq_some _ _ _ _ hpos.ne', hpos, one_div_mul_cancel hpos.ne'⟩

/-- Witness for claim C10 at the concrete reference CDF and the physician
record. -/
theorem embedded_dataset_rates_positive_witness :
    ∃ r, calculate_true_pass_rate refCdf "医師" dataPhysician "平均" = some r ∧
      0 < r.truePassRate ∧ r.oneInN * r.truePassRate = 1 :=
  embedded_dataset_rates_positive refCdf refCdf_lt_one "医師" dataPhysician
    (by simp [medical_licenses_data]) rfl

end MedicalLicense
